import Mathlib

/-!
Verification of the hand-tracking / gesture-recognition pipeline of the
VR-Games-Platform repository.

Numeric model: JavaScript numbers (IEEE-754 doubles) are modelled as exact
rationals (`ℚ`).  `Math.PI` is modelled by `mathPi`, the exact rational value
of the IEEE-754 double nearest to π.  Euclidean-distance comparisons of the
form `sqrt(e) < c` (`Math.hypot`, `Math.sqrt`) are embedded as the equivalent
square comparison `e < c^2` (both sides are nonnegative, so the two are
equivalent over the reals); this keeps every definition inside `ℚ`.
-/

/-- Exact rational value of the IEEE-754 double `Math.PI`
    (`884279719003555 * 2^-48`). -/
def mathPi : ℚ := 884279719003555 / 281474976710656

/- ═══════════════ One-Euro filter (src/hand-tracker.js, class OneEuroFilter) ═══════════════ -/

/-- State of `OneEuroFilter` (src/hand-tracker.js lines 14-53).
    In the JS source `xPrev` and `tPrev` start as `null`; we model them as
    `Option ℚ`.  The JS code only branches on `tPrev === null`; if `xPrev`
    were read while `null`, JS would coerce `null` to `0`, which is what
    `Option.getD 0` below reproduces. -/
structure OneEuroFilter where
  freq : ℚ
  minCutoff : ℚ
  beta : ℚ
  dCutoff : ℚ
  xPrev : Option ℚ
  dxPrev : ℚ
  tPrev : Option ℚ
deriving DecidableEq, Repr

/-- Constructor `new OneEuroFilter(freq, minCutoff, beta, dCutoff)`
    (JS defaults: 60, 1.0, 0.007, 1.0). -/
def OneEuroFilter.init (freq minCutoff beta dCutoff : ℚ) : OneEuroFilter :=
  { freq := freq, minCutoff := minCutoff, beta := beta, dCutoff := dCutoff,
    xPrev := none, dxPrev := 0, tPrev := none }

/-- `OneEuroFilter._smoothingFactor(cutoff, dt)`:
    `r = 2π·cutoff·dt; return r / (r + 1)`. -/
def OneEuroFilter.smoothingFactor (cutoff dt : ℚ) : ℚ :=
  let r := 2 * mathPi * cutoff * dt
  r / (r + 1)

/-- `OneEuroFilter.filter(x, t)` (src/hand-tracker.js lines 28-47).
    Returns the smoothed value together with the updated filter state. -/
def OneEuroFilter.filter (f : OneEuroFilter) (x t : ℚ) : ℚ × OneEuroFilter :=
  if f.tPrev = none then
    (x, { f with xPrev := some x, tPrev := some t, dxPrev := 0 })
  else
    let tp := f.tPrev.getD 0
    let xp := f.xPrev.getD 0
    let dt := max (1 / 1000000) (t - tp)
    let dx := (x - xp) / dt
    let aDx := OneEuroFilter.smoothingFactor f.dCutoff dt
    let dxSmooth := aDx * dx + (1 - aDx) * f.dxPrev
    let cutoff := f.minCutoff + f.beta * |dxSmooth|
    let a := OneEuroFilter.smoothingFactor cutoff dt
    let xSmooth := a * x + (1 - a) * xp
    (xSmooth, { f with freq := 1 / dt, xPrev := some xSmooth,
                       dxPrev := dxSmooth, tPrev := some t })

/-- `OneEuroFilter.reset()` (src/hand-tracker.js lines 48-52). -/
def OneEuroFilter.reset (f : OneEuroFilter) : OneEuroFilter :=
  { f with xPrev := none, dxPrev := 0, tPrev := none }

/-- Helper: closed form of a non-first `filter` call (shared by several
    claim theorems below). -/
lemma OneEuroFilter.filter_of_tPrev_some (f : OneEuroFilter) (x t tp xp : ℚ)
    (h1 : f.tPrev = some tp) (h2 : f.xPrev = some xp) :
    f.filter x t =
      (let dt := max (1 / 1000000) (t - tp)
       let dx := (x - xp) / dt
       let aDx := OneEuroFilter.smoothingFactor f.dCutoff dt
       let dxSmooth := aDx * dx + (1 - aDx) * f.dxPrev
       let cutoff := f.minCutoff + f.beta * |dxSmooth|
       let a := OneEuroFilter.smoothingFactor cutoff dt
       let xSmooth := a * x + (1 - a) * xp
       (xSmooth, { f with freq := 1 / dt, xPrev := some xSmooth,
                          dxPrev := dxSmooth, tPrev := some t })) := by
  simp only [OneEuroFilter.filter, h1, h2]
  simp

/-- Helper: the clamped time step of a non-first call is positive. -/
lemma dt_pos (t tp : ℚ) : 0 < max (1 / 1000000 : ℚ) (t - tp) :=
  lt_of_lt_of_le (by norm_num) (le_max_left _ _)

/-- Helper: `mathPi` is positive. -/
lemma mathPi_pos : 0 < mathPi := by norm_num [mathPi]

/-- Helper: the smoothing factor lies strictly between 0 and 1 whenever the
    cutoff and the time step are positive. -/
lemma smoothingFactor_mem (cutoff dt : ℚ) (hc : 0 < cutoff) (hdt : 0 < dt) :
    0 < OneEuroFilter.smoothingFactor cutoff dt ∧
      OneEuroFilter.smoothingFactor cutoff dt < 1 := by
  have hr : 0 < 2 * mathPi * cutoff * dt :=
    mul_pos (mul_pos (mul_pos two_pos mathPi_pos) hc) hdt
  simp only [OneEuroFilter.smoothingFactor]
  constructor
  · exact div_pos hr (by linarith)
  · rw [div_lt_one (by linarith)]
    linarith

/-- C5: the first `filter(rawValue, t)` call on a freshly constructed or
    `reset()` filter returns `rawValue` unchanged and records it (together
    with `t`, and a zero derivative estimate) as previous state, regardless
    of any history accumulated before the reset. -/
theorem C5_first_call_identity (f : OneEuroFilter) (x t fr mc b dc : ℚ) :
    (f.reset).filter x t =
      (x, { f.reset with xPrev := some x, tPrev := some t, dxPrev := 0 }) ∧
    (OneEuroFilter.init fr mc b dc).filter x t =
      (x, { OneEuroFilter.init fr mc b dc with
              xPrev := some x, tPrev := some t, dxPrev := 0 }) := by
  constructor <;> simp [OneEuroFilter.filter, OneEuroFilter.reset, OneEuroFilter.init]

/-- C6: every non-first `filter(x, t)` call returns
    `alpha*x + (1-alpha)*xPrev` with `dt = max(1e-6, t - tPrev)` (so a zero,
    duplicate or out-of-order timestamp still yields a strictly positive
    `dt`), `alpha = (2π·cutoff·dt)/(2π·cutoff·dt + 1)`, and
    `cutoff = minCutoff + beta*|dxSmooth|` where `dxSmooth` is the raw
    derivative estimate smoothed with the fixed derivative cutoff; the new
    `xSmooth`, `dxSmooth` and `t` are stored as previous state. -/
theorem C6_filter_formula (f : OneEuroFilter) (x t tp xp : ℚ)
    (h1 : f.tPrev = some tp) (h2 : f.xPrev = some xp) :
    (let dt := max (1 / 1000000) (t - tp)
     let dx := (x - xp) / dt
     let aDx := OneEuroFilter.smoothingFactor f.dCutoff dt
     let dxSmooth := aDx * dx + (1 - aDx) * f.dxPrev
     let cutoff := f.minCutoff + f.beta * |dxSmooth|
     let a := OneEuroFilter.smoothingFactor cutoff dt
     let xSmooth := a * x + (1 - a) * xp
     f.filter x t =
       (xSmooth, { f with freq := 1 / dt, xPrev := some xSmooth,
                          dxPrev := dxSmooth, tPrev := some t }) ∧
     a = 2 * mathPi * cutoff * dt / (2 * mathPi * cutoff * dt + 1) ∧
     0 < dt) := by
  refine ⟨f.filter_of_tPrev_some x t tp xp h1 h2, rfl, dt_pos t tp⟩

/-- Witness for C6 at a concrete filter state and input. -/
theorem C6_filter_formula_witness :
    (({ freq := 60, minCutoff := 1, beta := 0, dCutoff := 1,
        xPrev := some 0, dxPrev := 0, tPrev := some 0 } : OneEuroFilter).tPrev
        = some 0) ∧
    (0 : ℚ) < max (1 / 1000000) ((1 : ℚ) - 0) := by
  refine ⟨rfl, ?_⟩
  exact (C6_filter_formula
    { freq := 60, minCutoff := 1, beta := 0, dCutoff := 1,
      xPrev := some 0, dxPrev := 0, tPrev := some 0 } 1 1 0 0 rfl rfl).2.2

/-- C10: on every non-first `filter(x, t)` call with `minCutoff > 0` and
    `beta ≥ 0`, the smoothing coefficient lies strictly between 0 and 1, so
    the returned smoothed value lies between the previous smoothed value and
    the current raw input. -/
theorem C10_filter_no_overshoot (f : OneEuroFilter) (x t tp xp : ℚ)
    (h1 : f.tPrev = some tp) (h2 : f.xPrev = some xp)
    (hmc : 0 < f.minCutoff) (hb : 0 ≤ f.beta) :
    (min xp x ≤ (f.filter x t).1 ∧ (f.filter x t).1 ≤ max xp x) ∧
    (let dt := max (1 / 1000000) (t - tp)
     let dx := (x - xp) / dt
     let aDx := OneEuroFilter.smoothingFactor f.dCutoff dt
     let dxSmooth := aDx * dx + (1 - aDx) * f.dxPrev
     let cutoff := f.minCutoff + f.beta * |dxSmooth|
     let a := OneEuroFilter.smoothingFactor cutoff dt
     0 < a ∧ a < 1) := by
  have hcut : 0 < f.minCutoff + f.beta *
      |OneEuroFilter.smoothingFactor f.dCutoff (max (1 / 1000000) (t - tp)) *
         ((x - xp) / max (1 / 1000000) (t - tp)) +
       (1 - OneEuroFilter.smoothingFactor f.dCutoff (max (1 / 1000000) (t - tp)))
         * f.dxPrev| := by
    have := mul_nonneg hb (abs_nonneg
      (OneEuroFilter.smoothingFactor f.dCutoff (max (1 / 1000000) (t - tp)) *
         ((x - xp) / max (1 / 1000000) (t - tp)) +
       (1 - OneEuroFilter.smoothingFactor f.dCutoff (max (1 / 1000000) (t - tp)))
         * f.dxPrev))
    linarith
  have ha := smoothingFactor_mem _ _ hcut (dt_pos t tp)
  have hval := f.filter_of_tPrev_some x t tp xp h1 h2
  constructor
  · rw [hval]
    simp only
    constructor
    · rcases le_total xp x with hle | hle
      · rw [min_eq_left hle]
        nlinarith [ha.1, ha.2]
      · rw [min_eq_right hle]
        nlinarith [ha.1, ha.2]
    · rcases le_total xp x with hle | hle
      · rw [max_eq_right hle]
        nlinarith [ha.1, ha.2]
      · rw [max_eq_left hle]
        nlinarith [ha.1, ha.2]
  · exact ha

/-- Witness for C10 at a concrete filter state and input. -/
theorem C10_filter_no_overshoot_witness :
    (({ freq := 60, minCutoff := 1, beta := 0, dCutoff := 1,
        xPrev := some 0, dxPrev := 0, tPrev := some 0 } : OneEuroFilter).xPrev
        = some 0) ∧
    (min (0 : ℚ) 1 ≤
      (({ freq := 60, minCutoff := 1, beta := 0, dCutoff := 1,
          xPrev := some 0, dxPrev := 0, tPrev := some 0 } : OneEuroFilter).filter
            1 1).1 ∧
     (({ freq := 60, minCutoff := 1, beta := 0, dCutoff := 1,
         xPrev := some 0, dxPrev := 0, tPrev := some 0 } : OneEuroFilter).filter
           1 1).1 ≤ max (0 : ℚ) 1) := by
  refine ⟨rfl, ?_⟩
  exact (C10_filter_no_overshoot
    { freq := 60, minCutoff := 1, beta := 0, dCutoff := 1,
      xPrev := some 0, dxPrev := 0, tPrev := some 0 } 1 1 0 0 rfl rfl
    (by norm_num) (le_refl 0)).1

/- ═══════════════ Boxing tracker (src/games/flappy/flappy.js, class BoxingTracker) ═══════════════ -/

/-- Per-hand record of `BoxingTracker.hands.left/right`.  `armLength` and
    `forwardZ` are added dynamically by `update` in the JS source. -/
structure BHand where
  x : ℚ
  y : ℚ
  z : ℚ
  prevX : ℚ
  prevY : ℚ
  prevZ : ℚ
  visible : Bool
  fistClosed : Bool
  armLength : ℚ
  forwardZ : ℚ
deriving DecidableEq, Repr

/-- Per-hand punch-reach state `BoxingTracker.punchState.left/right`.
    `startY`/`startX` are added dynamically on entry into the reaching
    phase in the JS source. -/
structure PunchState where
  reaching : Bool
  startZ : ℚ
  peakZ : ℚ
  startTime : ℚ
  extended : Bool
  startY : ℚ
  startX : ℚ
deriving DecidableEq, Repr

/-- One entry of the per-hand position history `BoxingTracker.history`. -/
structure HistEntry where
  x : ℚ
  y : ℚ
  z : ℚ
  t : ℚ
deriving DecidableEq, Repr, Inhabited

/-- Punch classification labels assigned on completion. -/
inductive PunchType where
  | jab
  | hook
  | uppercut
deriving DecidableEq, Repr

/-- The payload passed to the `onPunch` callback (hand label omitted: the
    detector below is the per-hand body of `_detectPunch`). -/
structure PunchEv where
  type : PunchType
  power : ℚ
  x : ℚ
  y : ℚ
  reach : ℚ
deriving DecidableEq, Repr

/-- `this.PUNCH_COOLDOWN_MS = 250`. -/
def PUNCH_COOLDOWN_MS : ℚ := 250
/-- `this.PUNCH_VELOCITY_THRESHOLD = 0.005`. -/
def PUNCH_VELOCITY_THRESHOLD : ℚ := 5 / 1000
/-- `this.PUNCH_REACH_TIME = 400` (max time for punch to connect). -/
def PUNCH_REACH_TIME : ℚ := 400
/-- `this.MIN_PUNCH_TRAVEL = 0.02`. -/
def MIN_PUNCH_TRAVEL : ℚ := 2 / 100
/-- `this.GUARD_Y_THRESHOLD = 0.45`. -/
def GUARD_Y_THRESHOLD : ℚ := 45 / 100
/-- `this.GUARD_X_RANGE = 0.25`. -/
def GUARD_X_RANGE : ℚ := 25 / 100

/-- The "VALID PUNCH" block of `_detectPunch`: classify the punch type from
    the travel pattern and compute its power (base power per type, speed
    bonuses, closed-fist bonus), producing the `onPunch` payload. -/
def classifyPunch (st : PunchState) (hand : BHand) (now : ℚ)
    (travelDistance yTravel xTravel : ℚ) : PunchEv :=
  let tp : PunchType × ℚ :=
    if yTravel > 8 / 100 ∧ hand.y < 45 / 100 then
      (PunchType.uppercut, 8 / 5 + min (yTravel * 4) (7 / 5))
    else if xTravel > 8 / 100 then
      (PunchType.hook, 13 / 10 + min (xTravel * 3) (6 / 5))
    else
      (PunchType.jab, 1 + min (travelDistance * 6) 1)
  let punchSpeed := travelDistance / ((now - st.startTime) / 1000)
  let p1 := if punchSpeed > 3 / 10 then tp.2 + 3 / 10 else tp.2
  let p2 := if punchSpeed > 1 / 2 then p1 + 3 / 10 else p1
  let power := if hand.fistClosed then p2 + 1 / 5 else p2
  { type := tp.1, power := power, x := hand.x, y := hand.y,
    reach := travelDistance }

/-- `BoxingTracker._detectPunch(label, hand, landmarks, now)` for one hand.
    Inputs: that hand's cooldown stamp `punchCooldown[label]`, the tracker's
    `isGuarding` flag, that hand's history list, punch state, hand record,
    and the current time.  Returns the updated punch state, the updated
    cooldown stamp, and the fired `onPunch` payload, if any.
    Notes on the translation: `hist[Math.max(0, len-3)]` coincides with
    truncated `Nat` subtraction `len - 3`; the unused local
    `dt = (recent.t - older.t) || 1` of the source is dropped;
    `this.lastPunch` duplicates the returned event and is omitted; JS
    division `travelDistance / 0` (possible only when `now` equals
    `startTime`) yields `Infinity` while `ℚ` division yields `0` — in that
    corner the JS code would add both speed bonuses. -/
def detectPunch (cool : ℚ) (isGuarding : Bool) (hist : List HistEntry)
    (st : PunchState) (hand : BHand) (now : ℚ) :
    PunchState × ℚ × Option PunchEv :=
  if now - cool < PUNCH_COOLDOWN_MS then (st, cool, none)
  else if isGuarding then (st, cool, none)
  else if hist.length < 3 then (st, cool, none)
  else
    let recent := hist.getD (hist.length - 1) default
    let older := hist.getD (hist.length - 3) default
    let zVelocity := older.z - recent.z
    let yVelocity := older.y - recent.y
    let xVelocity := recent.x - older.x
    let xSpeed := |xVelocity|
    let currentReach := -hand.z
    if !st.reaching then
      let startingPunch := zVelocity > PUNCH_VELOCITY_THRESHOLD
      let startingUppercut := yVelocity > 2 / 100 ∧ hand.y < 6 / 10
      let startingHook := xSpeed > 2 / 100
      if startingPunch ∨ startingUppercut ∨ startingHook then
        ({ reaching := true, startZ := currentReach, peakZ := currentReach,
           startTime := now, startY := hand.y, startX := hand.x,
           extended := false }, cool, none)
      else (st, cool, none)
    else
      let peakZ := if currentReach > st.peakZ then currentReach else st.peakZ
      let travelDistance := peakZ - st.startZ
      let yTravel := st.startY - hand.y
      let xTravel := |hand.x - st.startX|
      let isExtended := travelDistance > MIN_PUNCH_TRAVEL ∨
        yTravel > 3 / 100 ∨ xTravel > 3 / 100 ∨ now - st.startTime > 100
      let punchTimedOut := now - st.startTime > PUNCH_REACH_TIME
      let armRetreating := zVelocity < -(1 / 100)
      let punchComplete := punchTimedOut ∨ (isExtended ∧ armRetreating)
      if punchComplete ∧ isExtended then
        ({ st with peakZ := peakZ, reaching := false, extended := false },
         now,
         some (classifyPunch st hand now travelDistance yTravel xTravel))
      else if punchTimedOut ∧ ¬isExtended then
        ({ st with peakZ := peakZ, reaching := false, extended := false },
         cool, none)
      else
        ({ st with peakZ := peakZ }, cool, none)

/-- One per-hand call frame of `_detectPunch` (the quantities that vary
    between frames). -/
structure PunchFrame where
  isGuarding : Bool
  hist : List HistEntry
  hand : BHand
  now : ℚ
deriving Repr

/-- Iterated `_detectPunch` over a sequence of frames for one hand,
    threading punch state and cooldown and collecting fired events. -/
def runDetectPunch (st : PunchState) (cool : ℚ) :
    List PunchFrame → PunchState × ℚ × List PunchEv
  | [] => (st, cool, [])
  | f :: rest =>
      let r := detectPunch cool f.isGuarding f.hist st f.hand f.now
      let rr := runDetectPunch r.1 r.2.1 rest
      (rr.1, rr.2.1, r.2.2.toList ++ rr.2.2)

/-- Helper: a call inside the cooldown window is a no-op. -/
lemma detectPunch_cooldown (cool : ℚ) (g : Bool) (hist : List HistEntry)
    (st : PunchState) (hand : BHand) (now : ℚ)
    (h : now - cool < PUNCH_COOLDOWN_MS) :
    detectPunch cool g hist st hand now = (st, cool, none) := by
  simp [detectPunch, h]

/-- C3: after `onPunch` fires, the per-hand cooldown stamp is set to the
    firing time, and every `_detectPunch` call for that hand whose time is
    closer to the stamp than `PUNCH_COOLDOWN_MS` returns immediately: over
    any such frame sequence no further punch fires and the punch state and
    cooldown are unchanged — so two qualifying reach phases closer together
    than the cooldown window produce exactly one fired `onPunch` event. -/
theorem C3_punch_cooldown :
    (∀ (cool : ℚ) (g : Bool) (hist : List HistEntry) (st : PunchState)
        (hand : BHand) (now : ℚ) (ev : PunchEv),
      (detectPunch cool g hist st hand now).2.2 = some ev →
      (detectPunch cool g hist st hand now).2.1 = now) ∧
    (∀ (st : PunchState) (cool : ℚ) (frames : List PunchFrame),
      (∀ f ∈ frames, f.now - cool < PUNCH_COOLDOWN_MS) →
      runDetectPunch st cool frames = (st, cool, [])) := by
  constructor
  · intro cool g hist st hand now ev h
    unfold detectPunch at h ⊢
    dsimp only at h ⊢
    split_ifs at h ⊢ <;> rfl
  · intro st cool frames
    induction frames with
    | nil => intro _; rfl
    | cons f rest ih =>
        intro h
        have hf := h f (List.mem_cons_self f rest)
        have hrest := fun g hg => h g (List.mem_cons_of_mem f hg)
        simp [runDetectPunch, detectPunch_cooldown _ _ _ _ _ _ hf, ih hrest]

/-- Concrete three-entry stationary history used by witnesses below. -/
def histW : List HistEntry :=
  List.replicate 3 { x := 1 / 2, y := 1 / 2, z := 0, t := 10000 }

/-- Concrete punch state: reaching since time 10000 with no spatial travel. -/
def stW : PunchState :=
  { reaching := true, startZ := 0, peakZ := 0, startTime := 10000,
    extended := false, startY := 1 / 2, startX := 1 / 2 }

/-- Concrete stationary hand record. -/
def handW : BHand :=
  { x := 1 / 2, y := 1 / 2, z := 0, prevX := 1 / 2, prevY := 1 / 2,
    prevZ := 0, visible := true, fistClosed := false, armLength := 0,
    forwardZ := 0 }

/-- Two concrete frames inside the cooldown window of the firing call. -/
def framesW : List PunchFrame :=
  [{ isGuarding := false, hist := histW, hand := handW, now := 10500 },
   { isGuarding := false, hist := histW, hand := handW, now := 10600 }]

/-- Helper: value of the concrete firing call used by several witnesses. -/
lemma detectPunch_fireW :
    detectPunch 0 false histW stW handW 10401 =
      ({ stW with reaching := false, extended := false }, 10401,
       some { type := PunchType.jab, power := 1, x := 1 / 2, y := 1 / 2,
              reach := 0 }) := by
  norm_num [detectPunch, classifyPunch, histW, stW, handW, PUNCH_COOLDOWN_MS,
    PUNCH_REACH_TIME, MIN_PUNCH_TRAVEL, PUNCH_VELOCITY_THRESHOLD,
    List.replicate]

/-- Witness for C3: a concrete firing call stamps the cooldown with the
    firing time, and two subsequent frames inside the cooldown window leave
    everything unchanged and fire nothing. -/
theorem C3_punch_cooldown_witness :
    ((detectPunch 0 false histW stW handW 10401).2.2 =
      some { type := PunchType.jab, power := 1, x := 1 / 2, y := 1 / 2,
             reach := 0 }) ∧
    (detectPunch 0 false histW stW handW 10401).2.1 = 10401 ∧
    (∀ f ∈ framesW, f.now - (10401 : ℚ) < PUNCH_COOLDOWN_MS) ∧
    runDetectPunch stW 10401 framesW = (stW, 10401, []) := by
  have hfire : (detectPunch 0 false histW stW handW 10401).2.2 =
      some { type := PunchType.jab, power := 1, x := 1 / 2, y := 1 / 2,
             reach := 0 } := by rw [detectPunch_fireW]
  have hmem : ∀ f ∈ framesW, f.now - (10401 : ℚ) < PUNCH_COOLDOWN_MS := by
    intro f hf
    simp only [framesW, List.mem_cons, List.not_mem_nil, or_false] at hf
    rcases hf with rfl | rfl <;> norm_num [PUNCH_COOLDOWN_MS]
  exact ⟨hfire, C3_punch_cooldown.1 0 false histW stW handW 10401 _ hfire,
    hmem, C3_punch_cooldown.2 stW 10401 _ hmem⟩

/-- C8: whenever `isGuarding` is true, `_detectPunch` returns immediately
    for every hand: the punch state and cooldown are unchanged and no
    `onPunch` event can fire. -/
theorem C8_guard_suppresses_punch (cool : ℚ) (hist : List HistEntry)
    (st : PunchState) (hand : BHand) (now : ℚ) :
    detectPunch cool true hist st hand now = (st, cool, none) := by
  unfold detectPunch
  split_ifs <;> simp_all

/-- C4 counterexample: a reach phase in which the hand never becomes
    spatially extended (zero forward travel ≤ `MIN_PUNCH_TRAVEL`, zero
    vertical and lateral travel) and whose max reach window
    (`PUNCH_REACH_TIME`) has elapsed is NOT discarded silently: the call
    fires an `onPunch` event (the 100 ms elapsed-time fallback marks the
    hand extended). -/
theorem C4_counterexample :
    stW.reaching = true ∧
    (10401 : ℚ) - stW.startTime > PUNCH_REACH_TIME ∧
    ¬(stW.peakZ - stW.startZ > MIN_PUNCH_TRAVEL) ∧
    ¬(stW.startY - handW.y > 3 / 100) ∧
    ¬(|handW.x - stW.startX| > 3 / 100) ∧
    ((detectPunch 0 false histW stW handW 10401).2.2).isSome = true := by
  refine ⟨rfl, ?_, ?_, ?_, ?_, ?_⟩
  · norm_num [stW, PUNCH_REACH_TIME]
  · norm_num [stW, MIN_PUNCH_TRAVEL]
  · norm_num [stW, handW]
  · norm_num [stW, handW]
  · rw [detectPunch_fireW]
    rfl

/-- C4 amended: when the max reach window elapses during a reach phase (and
    the call is not blocked by cooldown, guard, or a short history), the
    attempt is never silently discarded — the elapsed-time fallback
    (100 ms < `PUNCH_REACH_TIME` = 400 ms) has already marked the hand
    "extended", so the call fires `onPunch` and the state returns to idle
    (`reaching = false`).  The silent-discard branch (timeout without
    extension) is unreachable. -/
theorem C4_timeout_fires (cool : ℚ) (hist : List HistEntry)
    (st : PunchState) (hand : BHand) (now : ℚ)
    (h1 : ¬(now - cool < PUNCH_COOLDOWN_MS))
    (h3 : ¬(hist.length < 3))
    (hr : st.reaching = true)
    (ht : now - st.startTime > PUNCH_REACH_TIME) :
    ((detectPunch cool false hist st hand now).2.2).isSome = true ∧
    (detectPunch cool false hist st hand now).1.reaching = false := by
  have h100 : now - st.startTime > 100 := by
    have : (100 : ℚ) < PUNCH_REACH_TIME := by norm_num [PUNCH_REACH_TIME]
    linarith
  simp [detectPunch, h1, h3, hr, ht, h100]

/-- Witness for C4's amended theorem at a concrete timed-out reach phase. -/
theorem C4_timeout_fires_witness :
    ¬((10401 : ℚ) - 0 < PUNCH_COOLDOWN_MS) ∧
    ¬(histW.length < 3) ∧
    stW.reaching = true ∧
    (10401 : ℚ) - stW.startTime > PUNCH_REACH_TIME ∧
    (((detectPunch 0 false histW stW handW 10401).2.2).isSome = true ∧
     (detectPunch 0 false histW stW handW 10401).1.reaching = false) := by
  have h1 : ¬((10401 : ℚ) - 0 < PUNCH_COOLDOWN_MS) := by
    norm_num [PUNCH_COOLDOWN_MS]
  have h3 : ¬(histW.length < 3) := by norm_num [histW]
  have ht : (10401 : ℚ) - stW.startTime > PUNCH_REACH_TIME := by
    norm_num [stW, PUNCH_REACH_TIME]
  exact ⟨h1, h3, rfl, ht, C4_timeout_fires 0 histW stW handW 10401 h1 h3 rfl ht⟩

/-- Guard-related tracker state (`isGuarding`, `guardStartTime`). -/
structure GuardState where
  isGuarding : Bool
  guardStartTime : ℚ
deriving DecidableEq, Repr

/-- `BoxingTracker._updateGuard(now)` (flappy.js).  Inputs: guard state and
    the two hand records.  Returns the updated guard state and the argument
    passed to `onGuardChange`, if it fired. -/
def updateGuard (g : GuardState) (L R : BHand) (now : ℚ) :
    GuardState × Option Bool :=
  if !L.visible || !R.visible then
    if g.isGuarding then ({ g with isGuarding := false }, some false)
    else (g, none)
  else
    let bothHigh := L.y < GUARD_Y_THRESHOLD ∧ R.y < GUARD_Y_THRESHOLD
    let bothCenter := |L.x - 1 / 2| < GUARD_X_RANGE ∧ |R.x - 1 / 2| < GUARD_X_RANGE
    let handsClose := |L.x - R.x| < 35 / 100
    let shouldGuard := bothHigh ∧ bothCenter ∧ handsClose
    if shouldGuard ∧ ¬g.isGuarding then
      ({ isGuarding := true, guardStartTime := now }, some true)
    else if ¬shouldGuard ∧ g.isGuarding then
      ({ g with isGuarding := false }, some false)
    else (g, none)

/-- C9: `onGuardChange(b)` fires exactly when the guard state actually
    changes to `b`; on a frame with no state change (steady-state guarding
    or non-guarding) nothing fires and the guard state is untouched — so
    the callback never fires repeatedly across consecutive steady frames. -/
theorem C9_guard_change_edge_triggered (g : GuardState) (L R : BHand)
    (now : ℚ) :
    ((updateGuard g L R now).2 = some true ↔
      (g.isGuarding = false ∧ (updateGuard g L R now).1.isGuarding = true)) ∧
    ((updateGuard g L R now).2 = some false ↔
      (g.isGuarding = true ∧ (updateGuard g L R now).1.isGuarding = false)) ∧
    ((updateGuard g L R now).2 = none → (updateGuard g L R now).1 = g) := by
  unfold updateGuard
  dsimp only
  split_ifs <;> simp_all

/- ═══════════════ Hand cursor (src/hand-tracker.js, class HandCursor) ═══════════════ -/

/-- One hand landmark (normalized camera-space coordinates). -/
structure Landmark where
  x : ℚ
  y : ℚ
  z : ℚ
deriving DecidableEq, Repr, Inhabited

/-- A landmark set is the detector's array of 21 points; `lget` is JS array
    indexing (a 21-point set never reads out of bounds). -/
def lget (lm : List Landmark) (i : Nat) : Landmark :=
  lm.getD i default

/-- Squared 2D distance (embeds `Math.hypot(dx, dy)` / `Math.sqrt(dx²+dy²)`
    comparisons as squared comparisons). -/
def distSq2 (a b : Landmark) : ℚ :=
  (a.x - b.x) ^ 2 + (a.y - b.y) ^ 2

/-- `HandCursor._isPinching(thumbTip, indexTip)`:
    `sqrt((tx-ix)² + (ty-iy)²) < PINCH_THRESHOLD` (threshold default 0.08). -/
def isPinching (pinchThreshold : ℚ) (thumbTip indexTip : Landmark) : Prop :=
  distSq2 thumbTip indexTip < pinchThreshold ^ 2

instance (c : ℚ) (a b : Landmark) : Decidable (isPinching c a b) := by
  unfold isPinching
  infer_instance

/-- `HandCursor._isPointing(landmarks)`. -/
def isPointing (lm : List Landmark) : Prop :=
  (lget lm 8).y < (lget lm 6).y ∧ (lget lm 12).y > (lget lm 10).y ∧
  (lget lm 16).y > (lget lm 14).y ∧ (lget lm 20).y > (lget lm 18).y

instance (lm : List Landmark) : Decidable (isPointing lm) := by
  unfold isPointing
  infer_instance

/-- One iteration of the curl-counting loop of `HandCursor._isFistClosed`:
    a finger counts as curled when `tipToWrist < pipToWrist * 0.85`
    (squared on both sides here). -/
def curlOf (lm : List Landmark) (tip pip : Nat) : Nat :=
  if distSq2 (lget lm tip) (lget lm 0) <
      distSq2 (lget lm pip) (lget lm 0) * (85 / 100) ^ 2 then 1 else 0

/-- `HandCursor._isFistClosed(landmarks)`: tips `[8,12,16,20]` against PIPs
    `[6,10,14,18]`; at least 3 of the 4 non-thumb fingers curled means
    fist. -/
def isFistClosed (lm : List Landmark) : Prop :=
  curlOf lm 8 6 + curlOf lm 12 10 + curlOf lm 16 14 + curlOf lm 20 18 ≥ 3

instance (lm : List Landmark) : Decidable (isFistClosed lm) := by
  unfold isFistClosed
  infer_instance

/-- `HandCursor._isPalmOpen(landmarks)`: the four non-thumb fingertips all
    above their PIP joints, and the thumb tip spread more than 0.06 from the
    index MCP. -/
def isPalmOpen (lm : List Landmark) : Prop :=
  ((lget lm 8).y < (lget lm 6).y ∧ (lget lm 12).y < (lget lm 10).y ∧
   (lget lm 16).y < (lget lm 14).y ∧ (lget lm 20).y < (lget lm 18).y) ∧
  distSq2 (lget lm 4) (lget lm 5) > (6 / 100) ^ 2

instance (lm : List Landmark) : Decidable (isPalmOpen lm) := by
  unfold isPalmOpen
  infer_instance

/-- Events fired by the pinch debouncing block of `HandCursor._onResults`. -/
inductive PEv where
  | pinch
  | release
deriving DecidableEq, Repr

/-- The pinch debouncing block of `HandCursor._onResults` (src/hand-tracker.js
    lines 252-267), acting on `cursor.pinching` and `pinchStartTime`.
    `PINCH_HOLD_MS = 60`.  The JS falsiness test `!this.pinchStartTime`
    is the comparison with 0.  Returns the new `(pinching, pinchStartTime)`
    and the fired event, if any. -/
def pinchUpdate (pinching : Bool) (pinchStartTime : ℚ) (isP : Bool)
    (nowMs : ℚ) : Bool × ℚ × Option PEv :=
  if isP && !pinching then
    if pinchStartTime = 0 then (pinching, nowMs, none)
    else if nowMs - pinchStartTime > 60 then (true, 0, some PEv.pinch)
    else (pinching, pinchStartTime, none)
  else if !isP then
    if pinching then (false, 0, some PEv.release)
    else (pinching, 0, none)
  else (pinching, pinchStartTime, none)

/-- Iterated `pinchUpdate` over a sequence of frames, each frame given as
    the pinch predicate's value and the frame's `Date.now()` time. -/
def runPinch (pinching : Bool) (pinchStartTime : ℚ) :
    List (Bool × ℚ) → Bool × ℚ × List PEv
  | [] => (pinching, pinchStartTime, [])
  | (isP, now) :: rest =>
      let r := pinchUpdate pinching pinchStartTime isP now
      let rr := runPinch r.1 r.2.1 rest
      (rr.1, rr.2.1, (r.2.2).toList ++ rr.2.2)

/-- Number of `onPinch` firings in an event list. -/
def countPinch (evs : List PEv) : Nat :=
  (evs.filter (fun e => e = PEv.pinch)).length

/-- Helper: while `cursor.pinching` is true, frames whose pinch predicate is
    true leave the pinch state untouched and fire nothing. -/
lemma runPinch_pinching (frames : List (Bool × ℚ)) (s : ℚ)
    (h : ∀ f ∈ frames, f.1 = true) :
    runPinch true s frames = (true, s, []) := by
  induction frames with
  | nil => rfl
  | cons f rest ih =>
      obtain ⟨isP, now⟩ := f
      have h1 : isP = true := h (isP, now) (List.mem_cons_self _ _)
      subst h1
      have hrest := ih (fun g hg => h g (List.mem_cons_of_mem _ hg))
      simp [runPinch, pinchUpdate, hrest]

/-- Helper: from the armed state (`pinching = false`, nonzero
    `pinchStartTime = s`), a run of frames whose pinch predicate is true
    fires `onPinch` exactly once if some frame time exceeds `s` by more than
    the hold time, and never otherwise. -/
lemma runPinch_count_armed (frames : List (Bool × ℚ)) (s : ℚ) (hs : s ≠ 0)
    (h : ∀ f ∈ frames, f.1 = true) :
    countPinch (runPinch false s frames).2.2 =
      (if ∃ f ∈ frames, f.2 - s > 60 then 1 else 0) := by
  induction frames with
  | nil => simp [runPinch, countPinch]
  | cons f rest ih =>
      obtain ⟨isP, now⟩ := f
      have h1 : isP = true := h (isP, now) (List.mem_cons_self _ _)
      subst h1
      have hrest := fun g hg => h g (List.mem_cons_of_mem _ hg)
      by_cases hgt : now - s > 60
      · have hstep : pinchUpdate false s true now = (true, 0, some PEv.pinch) := by
          simp [pinchUpdate, hs, hgt]
        have hrun := runPinch_pinching rest 0 hrest
        simp [runPinch, hstep, hrun, countPinch, hgt]
      · have hstep : pinchUpdate false s true now = (false, s, none) := by
          simp [pinchUpdate, hs, hgt]
        simp only [runPinch, hstep, Option.toList_none, List.nil_append,
          ih hrest, List.exists_mem_cons_iff]
        exact (if_congr (or_iff_right hgt) rfl rfl).symm

/-- Helper: from the idle state, no `onPinch` fires over any sequence of
    pinch-predicate-true frames that all lie less than the hold time after
    the window start `t0` (invariant: `pinchStartTime` is 0 or at least
    `t0`). -/
lemma runPinch_no_fire (frames : List (Bool × ℚ)) (s t0 : ℚ)
    (hs : s = 0 ∨ t0 ≤ s)
    (h : ∀ f ∈ frames, f.1 = true ∧ t0 ≤ f.2 ∧ f.2 - t0 < 60) :
    countPinch (runPinch false s frames).2.2 = 0 := by
  induction frames generalizing s with
  | nil => simp [runPinch, countPinch]
  | cons f rest ih =>
      obtain ⟨isP, now⟩ := f
      obtain ⟨h1, h2, h3⟩ := h (isP, now) (List.mem_cons_self _ _)
      subst h1
      have hrest := fun g hg => h g (List.mem_cons_of_mem _ hg)
      by_cases hs0 : s = 0
      · subst hs0
        have hstep : pinchUpdate false 0 true now = (false, now, none) := by
          simp [pinchUpdate]
        simp [runPinch, hstep, ih now (Or.inr h2) hrest]
      · have hts : t0 ≤ s := hs.resolve_left hs0
        have hgt : ¬(now - s > 60) := by linarith
        have hstep : pinchUpdate false s true now = (false, s, none) := by
          simp [pinchUpdate, hs0, hgt]
        simp [runPinch, hstep, ih s hs hrest]

/-- C2: (1) a pinch predicate that holds only on frames less than the
    minimum hold time (60 ms) after the first pinching frame never fires
    `onPinch`; (2) from the idle state, if the predicate holds on every
    frame and some frame lies more than the hold time after the first one,
    `onPinch` fires exactly once over the whole run (no re-fire until
    release); (3) `onRelease` fires on any frame whose pinch predicate is
    false while the cursor was in the pinching state, which it leaves. -/
theorem C2_pinch_hold_debounce :
    (∀ (t0 : ℚ) (ts : List ℚ),
      (∀ t ∈ ts, t0 ≤ t ∧ t - t0 < 60) →
      countPinch (runPinch false 0 ((t0 :: ts).map (fun t => (true, t)))).2.2
        = 0) ∧
    (∀ (t0 : ℚ) (ts : List ℚ), 0 < t0 → (∃ t ∈ ts, t - t0 > 60) →
      countPinch (runPinch false 0 ((t0 :: ts).map (fun t => (true, t)))).2.2
        = 1) ∧
    (∀ (s now : ℚ), pinchUpdate true s false now =
      (false, 0, some PEv.release)) := by
  refine ⟨?_, ?_, ?_⟩
  · intro t0 ts h
    refine runPinch_no_fire _ 0 t0 (Or.inl rfl) ?_
    intro f hf
    simp only [List.mem_map] at hf
    obtain ⟨t, ht, rfl⟩ := hf
    rcases List.mem_cons.mp ht with rfl | htl
    · exact ⟨rfl, le_refl _, by norm_num⟩
    · exact ⟨rfl, (h t htl).1, (h t htl).2⟩
  · intro t0 ts ht0 hex
    have hstep : pinchUpdate false 0 true t0 = (false, t0, none) := by
      simp [pinchUpdate]
    have harm := runPinch_count_armed (ts.map (fun t => (true, t))) t0
      (by linarith) (by
        intro f hf
        simp only [List.mem_map] at hf
        obtain ⟨t, _, rfl⟩ := hf
        rfl)
    simp only [List.map_cons, runPinch, hstep, Option.toList_none,
      List.nil_append]
    rw [harm, if_pos]
    obtain ⟨t, ht, hgt⟩ := hex
    exact ⟨(true, t), List.mem_map_of_mem _ ht, hgt⟩
  · intro s now
    simp [pinchUpdate]

/-- Witness for C2: a 3-frame hold of 50 ms never fires; a hold whose last
    frame is 70 ms after the first fires exactly once; a pinch-false frame
    from the pinching state releases. -/
theorem C2_pinch_hold_debounce_witness :
    (∀ t ∈ [(130 : ℚ), 150], (100 : ℚ) ≤ t ∧ t - 100 < 60) ∧
    countPinch
      (runPinch false 0 (([100, 130, 150] : List ℚ).map
        (fun t => (true, t)))).2.2 = 0 ∧
    (0 : ℚ) < 100 ∧ (∃ t ∈ [(130 : ℚ), 170], t - 100 > 60) ∧
    countPinch
      (runPinch false 0 (([100, 130, 170] : List ℚ).map
        (fun t => (true, t)))).2.2 = 1 ∧
    pinchUpdate true 5 false 7 = (false, 0, some PEv.release) := by
  have hshort : ∀ t ∈ [(130 : ℚ), 150], (100 : ℚ) ≤ t ∧ t - 100 < 60 := by
    intro t ht
    simp only [List.mem_cons, List.not_mem_nil, or_false] at ht
    rcases ht with rfl | rfl <;> norm_num
  have hlong : ∃ t ∈ [(130 : ℚ), 170], t - 100 > 60 :=
    ⟨170, by simp, by norm_num⟩
  exact ⟨hshort, C2_pinch_hold_debounce.1 100 [130, 150] hshort,
    by norm_num, hlong,
    C2_pinch_hold_debounce.2.1 100 [130, 170] (by norm_num) hlong,
    C2_pinch_hold_debounce.2.2 5 7⟩

/- ═══════════════ Gesture classifiers (src/unnamed/part_000) ═══════════════ -/

/-- Squared 3D distance (embeds 3-argument `Math.hypot` comparisons). -/
def distSq3 (a b : Landmark) : ℚ :=
  (a.x - b.x) ^ 2 + (a.y - b.y) ^ 2 + (a.z - b.z) ^ 2

/-- `analyzeGesture(lm)` from the particle-sandbox page
    (src/unnamed/part_000 lines 1573-1599): pinch (3D thumb-index distance
    below 0.08), else fist (all four fingertips below their MCPs), else
    point, else peace, else the default label `"open"`. -/
def analyzeGesture (lm : List Landmark) : String :=
  let thumb := lget lm 4
  let index := lget lm 8
  let middle := lget lm 12
  let ring := lget lm 16
  let pinky := lget lm 20
  let indexMcp := lget lm 5
  let middleMcp := lget lm 9
  let ringMcp := lget lm 13
  let pinkyMcp := lget lm 17
  if distSq3 thumb index < (8 / 100) ^ 2 then "pinch"
  else if index.y > indexMcp.y ∧ middle.y > middleMcp.y ∧
      ring.y > ringMcp.y ∧ pinky.y > pinkyMcp.y then "fist"
  else if index.y < indexMcp.y ∧ ¬(middle.y < middleMcp.y) ∧
      ring.y > ringMcp.y ∧ pinky.y > pinkyMcp.y then "point"
  else if index.y < indexMcp.y ∧ middle.y < middleMcp.y ∧
      ring.y > ringMcp.y ∧ pinky.y > pinkyMcp.y then "peace"
  else "open"

/-- `detectGesture(landmarks)` from the fruit-slicer page
    (src/unnamed/part_000 lines 317-336): open palm (all four fingertips
    above their PIPs and thumb spread beyond 0.05 from the index MCP), else
    gun-point, else `"none"`. -/
def detectGesture (lm : List Landmark) : String :=
  if (lget lm 8).y < (lget lm 6).y ∧ (lget lm 12).y < (lget lm 10).y ∧
      (lget lm 16).y < (lget lm 14).y ∧ (lget lm 20).y < (lget lm 18).y ∧
      distSq2 (lget lm 4) (lget lm 5) > (5 / 100) ^ 2 then "palm"
  else if (lget lm 8).y < (lget lm 6).y ∧ (lget lm 12).y > (lget lm 10).y ∧
      (lget lm 16).y > (lget lm 14).y ∧ (lget lm 20).y > (lget lm 18).y then
    "point"
  else "none"

/-- The pinch predicate of `analyzeGesture`, stated standalone. -/
def pinchPredA (lm : List Landmark) : Prop :=
  distSq3 (lget lm 4) (lget lm 8) < (8 / 100) ^ 2

/-- The fist predicate of `analyzeGesture` (all four fingertips below their
    MCPs), stated standalone. -/
def fistPredA (lm : List Landmark) : Prop :=
  (lget lm 8).y > (lget lm 5).y ∧ (lget lm 12).y > (lget lm 9).y ∧
  (lget lm 16).y > (lget lm 13).y ∧ (lget lm 20).y > (lget lm 17).y

/-- The gun-point predicate of `analyzeGesture`, stated standalone. -/
def pointPredA (lm : List Landmark) : Prop :=
  (lget lm 8).y < (lget lm 5).y ∧ ¬((lget lm 12).y < (lget lm 9).y) ∧
  (lget lm 16).y > (lget lm 13).y ∧ (lget lm 20).y > (lget lm 17).y

/-- The peace predicate of `analyzeGesture`, stated standalone. -/
def peacePredA (lm : List Landmark) : Prop :=
  (lget lm 8).y < (lget lm 5).y ∧ (lget lm 12).y < (lget lm 9).y ∧
  (lget lm 16).y > (lget lm 13).y ∧ (lget lm 20).y > (lget lm 17).y

/-- The open-palm predicate of `detectGesture` (fingertips above PIPs and
    thumb spread), stated standalone. -/
def palmPredD (lm : List Landmark) : Prop :=
  (lget lm 8).y < (lget lm 6).y ∧ (lget lm 12).y < (lget lm 10).y ∧
  (lget lm 16).y < (lget lm 14).y ∧ (lget lm 20).y < (lget lm 18).y ∧
  distSq2 (lget lm 4) (lget lm 5) > (5 / 100) ^ 2

/-- The gun-point predicate of `detectGesture`, stated standalone. -/
def gunPointPredD (lm : List Landmark) : Prop :=
  (lget lm 8).y < (lget lm 6).y ∧ (lget lm 12).y > (lget lm 10).y ∧
  (lget lm 16).y > (lget lm 14).y ∧ (lget lm 20).y > (lget lm 18).y

/-- C1 amended: each classifier returns exactly one label, deterministically,
    by a fixed priority cascade — but neither implements the claimed order
    "pinch, fist, point, peace, palm-open, else none".  `analyzeGesture`
    checks pinch, then fist, then point, then peace, and otherwise returns
    `"open"` (there is no palm-open predicate and `"none"` is never
    returned); `detectGesture` checks palm, then gun-point, and otherwise
    returns `"none"` (there are no pinch/fist/peace cases). -/
theorem C1_classifier_priority (lm : List Landmark) :
    (analyzeGesture lm = "pinch" ↔ pinchPredA lm) ∧
    (analyzeGesture lm = "fist" ↔ ¬pinchPredA lm ∧ fistPredA lm) ∧
    (analyzeGesture lm = "point" ↔
      ¬pinchPredA lm ∧ ¬fistPredA lm ∧ pointPredA lm) ∧
    (analyzeGesture lm = "peace" ↔
      ¬pinchPredA lm ∧ ¬fistPredA lm ∧ ¬pointPredA lm ∧ peacePredA lm) ∧
    (analyzeGesture lm = "open" ↔
      ¬pinchPredA lm ∧ ¬fistPredA lm ∧ ¬pointPredA lm ∧ ¬peacePredA lm) ∧
    (detectGesture lm = "palm" ↔ palmPredD lm) ∧
    (detectGesture lm = "point" ↔ ¬palmPredD lm ∧ gunPointPredD lm) ∧
    (detectGesture lm = "none" ↔ ¬palmPredD lm ∧ ¬gunPointPredD lm) := by
  unfold analyzeGesture detectGesture pinchPredA fistPredA pointPredA
    peacePredA palmPredD gunPointPredD
  dsimp only
  split_ifs <;> simp_all

/-- A concrete fist pose: all four fingertips below both their PIPs and
    MCPs, thumb far from the index tip (no pinch).  Landmarks 1-3, 7, 11,
    15, 19 are irrelevant fillers. -/
def lmFist : List Landmark :=
  [{ x := 1 / 2, y := 9 / 10, z := 0 },
   { x := 1 / 2, y := 1 / 2, z := 0 },
   { x := 1 / 2, y := 1 / 2, z := 0 },
   { x := 1 / 2, y := 1 / 2, z := 0 },
   { x := 1 / 10, y := 1 / 2, z := 0 },
   { x := 45 / 100, y := 6 / 10, z := 0 },
   { x := 45 / 100, y := 7 / 10, z := 0 },
   { x := 1 / 2, y := 1 / 2, z := 0 },
   { x := 1 / 2, y := 8 / 10, z := 0 },
   { x := 1 / 2, y := 6 / 10, z := 0 },
   { x := 1 / 2, y := 7 / 10, z := 0 },
   { x := 1 / 2, y := 1 / 2, z := 0 },
   { x := 1 / 2, y := 8 / 10, z := 0 },
   { x := 55 / 100, y := 6 / 10, z := 0 },
   { x := 55 / 100, y := 7 / 10, z := 0 },
   { x := 1 / 2, y := 1 / 2, z := 0 },
   { x := 55 / 100, y := 8 / 10, z := 0 },
   { x := 6 / 10, y := 6 / 10, z := 0 },
   { x := 6 / 10, y := 7 / 10, z := 0 },
   { x := 1 / 2, y := 1 / 2, z := 0 },
   { x := 6 / 10, y := 8 / 10, z := 0 }]

/-- C1 counterexample: a landmark set that satisfies the repository's own
    fist predicates (both the classifier's all-fingers-down test and
    `_isFistClosed`'s curl count) and is not a pinch, yet `detectGesture`
    — the cited classifier — returns `"none"`, not `"fist"`: the claimed
    pinch→fist→point→peace→palm priority cascade is not what the code
    implements (`analyzeGesture` returns `"fist"` here, and its fallback
    label is `"open"`, never `"none"`). -/
theorem C1_counterexample :
    isFistClosed lmFist ∧
    fistPredA lmFist ∧
    ¬isPinching (8 / 100) (lget lmFist 4) (lget lmFist 8) ∧
    ¬pinchPredA lmFist ∧
    detectGesture lmFist = "none" ∧
    analyzeGesture lmFist = "fist" := by
  refine ⟨?_, ?_, ?_, ?_, ?_, ?_⟩
  · norm_num [isFistClosed, curlOf, distSq2, lget, lmFist]
  · norm_num [fistPredA, lget, lmFist]
  · norm_num [isPinching, distSq2, lget, lmFist]
  · norm_num [pinchPredA, distSq3, lget, lmFist]
  · norm_num [detectGesture, distSq2, lget, lmFist]
  · norm_num [analyzeGesture, distSq3, lget, lmFist]

/- ═══════════════ HandCursor._onResults state transition ═══════════════ -/

/-- `this.cursor` of `HandCursor` (screen-pixel coordinates and the DOM
    cursor visuals are presentation-layer and omitted). -/
structure CursorState where
  x : ℚ
  y : ℚ
  visible : Bool
  pinching : Bool
  pointing : Bool
  fistClosed : Bool
  palmOpen : Bool
deriving DecidableEq, Repr

/-- `this.secondHand` of `HandCursor`. -/
structure SecondHandState where
  x : ℚ
  y : ℚ
  visible : Bool
  pinching : Bool
deriving DecidableEq, Repr

/-- The mutable state of `HandCursor` read and written by `_onResults`. -/
structure HCState where
  cursor : CursorState
  secondHand : SecondHandState
  fx : OneEuroFilter
  fy : OneEuroFilter
  pinchStartTime : ℚ
  pinchThreshold : ℚ
deriving DecidableEq, Repr

/-- Callbacks fired by `_onResults` (coordinates are the filtered cursor
    position). -/
inductive HEv where
  | palmOpen (x y : ℚ)
  | pinch (x y : ℚ)
  | release (x y : ℚ)
  | move (x y : ℚ)
deriving DecidableEq, Repr

/-- The `i > 0` arm of the `_onResults` loop: each further hand overwrites
    `this.secondHand` (no filtering, no events). -/
def updateSecondHand (s : SecondHandState) (thresh : ℚ)
    (hands : List (List Landmark)) : SecondHandState :=
  hands.foldl
    (fun _ lm =>
      { x := 1 - (lget lm 8).x, y := (lget lm 8).y, visible := true,
        pinching := decide (isPinching thresh (lget lm 4) (lget lm 8)) })
    s

/-- `HandCursor._onResults(results)` (src/hand-tracker.js lines 211-278),
    as a state transition on `HCState` returning the fired events in order.
    `t` is the filter clock (`performance.now()/1000`), `nowMs` the wall
    clock (`Date.now()`) used by the pinch debouncer.  The DOM visual
    update and the ripple effect are presentation-layer and omitted; the
    `onResults` passthrough callback carries no state and is omitted. -/
def HandCursor.onResults (hc : HCState) (hands : List (List Landmark))
    (t nowMs : ℚ) : HCState × List HEv :=
  match hands with
  | [] =>
      ({ hc with cursor := { hc.cursor with visible := false },
                 secondHand := { hc.secondHand with visible := false },
                 fx := hc.fx.reset, fy := hc.fy.reset }, [])
  | first :: rest =>
      let indexTip := lget first 8
      let thumbTip := lget first 4
      let pointing := isPointing first
      let pinchingNow := isPinching hc.pinchThreshold thumbTip indexTip
      let palmOpen := isPalmOpen first
      let rx := hc.fx.filter (1 - indexTip.x) t
      let ry := hc.fy.filter indexTip.y t
      let cx := rx.1
      let cy := ry.1
      let pu := pinchUpdate hc.cursor.pinching hc.pinchStartTime
        (decide pinchingNow) nowMs
      let evPalm : List HEv := if palmOpen then [HEv.palmOpen cx cy] else []
      let evPinch : List HEv :=
        match pu.2.2 with
        | some PEv.pinch => [HEv.pinch cx cy]
        | some PEv.release => [HEv.release cx cy]
        | none => []
      ({ cursor := { x := cx, y := cy, visible := true, pinching := pu.1,
                     pointing := decide pointing,
                     fistClosed := decide (isFistClosed first),
                     palmOpen := decide palmOpen },
         secondHand := updateSecondHand hc.secondHand hc.pinchThreshold rest,
         fx := rx.2, fy := ry.2, pinchStartTime := pu.2.1,
         pinchThreshold := hc.pinchThreshold },
       evPalm ++ evPinch ++ [HEv.move cx cy])

/-- A concrete `HandCursor` state whose second-hand slot is visible
    (filters as constructed by `HandCursor`: `OneEuroFilter(60, 1.2, 0.005)`
    per axis, pinch threshold 0.08). -/
def hc0 : HCState :=
  { cursor := { x := 1 / 2, y := 1 / 2, visible := false, pinching := false,
                pointing := false, fistClosed := false, palmOpen := false },
    secondHand := { x := 3 / 10, y := 3 / 10, visible := true,
                    pinching := false },
    fx := OneEuroFilter.init 60 (12 / 10) (5 / 1000) 1,
    fy := OneEuroFilter.init 60 (12 / 10) (5 / 1000) 1,
    pinchStartTime := 0, pinchThreshold := 8 / 100 }

/-- C7 counterexample: on a frame whose detector results contain exactly one
    hand, the absent second hand's slot is NOT marked invisible — its stale
    state (including `visible = true`) is carried over unchanged. -/
theorem C7_counterexample :
    (HandCursor.onResults hc0 [lmFist] 1 2).1.secondHand.visible = true ∧
    (HandCursor.onResults hc0 [lmFist] 1 2).1.secondHand = hc0.secondHand := by
  exact ⟨rfl, rfl⟩

/-- C7 amended: only a frame with NO detected hands marks the slots
    invisible and resets the primary-hand filters (clearing all previous
    smoothing state); on a frame with exactly one detected hand the
    second-hand slot is left entirely untouched (stale). -/
theorem C7_absent_hand_reset (hc : HCState) (t nowMs : ℚ)
    (h1 : List Landmark) :
    (HandCursor.onResults hc [] t nowMs =
      ({ hc with cursor := { hc.cursor with visible := false },
                 secondHand := { hc.secondHand with visible := false },
                 fx := hc.fx.reset, fy := hc.fy.reset }, [])) ∧
    ((HandCursor.onResults hc [] t nowMs).1.fx.tPrev = none ∧
     (HandCursor.onResults hc [] t nowMs).1.fx.xPrev = none ∧
     (HandCursor.onResults hc [] t nowMs).1.fy.tPrev = none ∧
     (HandCursor.onResults hc [] t nowMs).1.fy.xPrev = none) ∧
    (HandCursor.onResults hc [h1] t nowMs).1.secondHand = hc.secondHand := by
  exact ⟨rfl, ⟨rfl, rfl, rfl, rfl⟩, rfl⟩
